import Mathlib

/-!
Verification of the asynchronous dependency-resolution pipeline of the
`python-dependency-resolver` repository.

The development is a shallow embedding of the relevant TypeScript code:

* `src/tools.ts` — `pypiLookupTool`, `packageDeprecationAnalysisTool`,
  `dependencyResolutionTool`, `requirementsGeneratorTool`;
* `src/shared.ts` — `ResolutionRequestSchema` (zod schema of a submission);
* the orchestrating agent (`DependencyResolverAgent`):
  `handleResolutionRequest`, `processResolution`, `resolveDependencies`,
  `generateReport`, `generateDetailedReport`, `storeReport`, `storeError`,
  `getResolutionStatus`;
* `src/services/package-research.ts` — `generatePackageAnalysis`.

Network-bound effects (the PyPI fetch, the research phase, the R2 report
store) are modelled by explicit parameters: a `Registry` value stands for
the observable state of PyPI (plus a warm cache) as seen through
`pypiLookupTool`, the research phase's outcome is passed in as data, and
each storage `put` is given a success/failure parameter.  Everything else
is translated directly from the source.
-/

namespace PipSpec

/-- JavaScript `a || b` on strings: `a` unless `a` is falsy (empty). -/
def jsOr (a b : String) : String := if a = "" then b else a

/-- JavaScript truthiness of a string (`""` is falsy). -/
def jsTruthyStr (s : String) : Bool := !(s == "")

/-- JavaScript truthiness of an optional string (`undefined` and `""` are falsy). -/
def jsTruthy (o : Option String) : Bool := jsTruthyStr (o.getD "")

/-- JavaScript `String.prototype.trim`: strip leading and trailing
whitespace.  (An executable character-level embedding; Lean's own
`String.trim` does not reduce inside the kernel.) -/
def jsTrim (s : String) : String :=
  ⟨((s.data.dropWhile Char.isWhitespace).reverse.dropWhile Char.isWhitespace).reverse⟩

/-- JavaScript `String.prototype.toLowerCase` on the ASCII package names
this system handles. -/
def jsToLower (s : String) : String := ⟨s.data.map Char.toLower⟩

/-! ## Registry model and `pypiLookupTool`

`pypiLookupTool.execute` trims and lowercases the package name, then
fetches `https://pypi.org/pypi/<name>/json`.  A `Registry` records, for
each (lowercase) package name PyPI knows, the `latest_version` string the
tool would extract (`info.version || "Unknown"`).  A missing entry models
the 404 path.  The cache branch returns the same data as the fetch and is
therefore not modelled separately. -/
abbrev Registry := List (String × String)

/-- Embedding of `pypiLookupTool.execute` restricted to the data
`dependencyResolutionTool` consumes: on success the package's
`latest_version`, on failure the error string. -/
def pypiLookup (registry : Registry) (package_name : String) : Except String String :=
  if jsTrim package_name = "" then
    .error "Package name is required"
  else
    let cleanPackageName := jsToLower (jsTrim package_name)
    match registry.lookup cleanPackageName with
    | some latest => .ok latest
    | none => .error ("Package '" ++ package_name ++
        "' not found on PyPI. Check the spelling or try a different package name.")

/-! ## `packageDeprecationAnalysisTool` -/

/-- One row of the known-deprecated-packages database in
`packageDeprecationAnalysisTool` (fields the resolution tool consumes,
plus `confidence` for the research-side analysis strings). -/
structure DeprecationDBEntry where
  deprecated : Bool
  reason : String
  alternatives : List String
  confidence : ℚ
deriving Repr, DecidableEq

/-- The `deprecatedPackages` database of `packageDeprecationAnalysisTool`. -/
def deprecatedPackagesDB : List (String × DeprecationDBEntry) :=
  [ ("nose", ⟨true,
      "Nose has been in maintenance mode for several years and is not compatible with Python 3.10+",
      ["pytest", "unittest"], 95/100⟩),
    ("nose2", ⟨true,
      "Nose2 development has slowed significantly, pytest is the recommended modern testing framework",
      ["pytest"], 8/10⟩),
    ("imp", ⟨true,
      "The imp module is deprecated since Python 3.4 and removed in Python 3.12",
      ["importlib"], 1⟩),
    ("distutils", ⟨true,
      "distutils is deprecated since Python 3.10 and removed in Python 3.12",
      ["setuptools", "build", "hatchling"], 1⟩),
    ("optparse", ⟨true,
      "optparse is deprecated since Python 2.7 in favor of argparse",
      ["argparse", "click", "typer"], 9/10⟩),
    ("setuptools", ⟨false,
      "setuptools < 65.0 has various compatibility issues with modern Python",
      ["setuptools>=65.0", "build", "poetry", "hatchling"], 3/10⟩),
    ("pkg_resources", ⟨true,
      "pkg_resources is deprecated, use importlib.metadata instead",
      ["importlib.metadata", "packaging"], 8/10⟩),
    ("2to3", ⟨true,
      "2to3 tool is deprecated as Python 2 end-of-life was reached",
      ["modern Python 3 code"], 1⟩) ]

/-- Result of `packageDeprecationAnalysisTool.execute` (the fields the
resolution tool reads; `success` is always true on this path). -/
structure DeprecationCheck where
  success : Bool
  is_deprecated : Bool
  reason : String
  alternatives : List String
deriving Repr, DecidableEq

/-- Embedding of `packageDeprecationAnalysisTool.execute` with
`check_detailed := false` (as called by `dependencyResolutionTool`): a
lookup in the static database; unknown packages are not deprecated. -/
def packageDeprecationAnalysis (package_name : String) : DeprecationCheck :=
  let cleanPackageName := jsToLower (jsTrim package_name)
  match deprecatedPackagesDB.lookup cleanPackageName with
  | some knownInfo =>
      { success := true, is_deprecated := knownInfo.deprecated,
        reason := knownInfo.reason, alternatives := knownInfo.alternatives }
  | none =>
      { success := true, is_deprecated := false,
        reason := "Package not in known deprecated packages list", alternatives := [] }

/-! ## `dependencyResolutionTool` -/

/-- One requirement, as accepted by the tool's zod parameters
(`name`, `operator`, optional `version`, `fixed`, `original_spec`). -/
structure Requirement where
  name : String
  operator : String
  version : Option String
  fixed : Bool
  original_spec : String
deriving Repr, DecidableEq

/-- `{name, version}` entry of `resolved_packages`. -/
structure ResolvedPackage where
  name : String
  version : String
deriving Repr, DecidableEq

/-- Entry of `deprecated_packages`. -/
structure DeprecatedPackage where
  name : String
  version : String
  reason : String
  suggested_alternative : Option String
deriving Repr, DecidableEq

/-- Entry of `conflicts`. -/
structure Conflict where
  packages : List String
  reason : String
  suggested_resolution : Option String
deriving Repr, DecidableEq

/-- One row of the `builtInDeprecated` table inside
`dependencyResolutionTool` (`version` is always `"built-in"`). -/
structure BuiltInInfo where
  deprecated : Bool
  reason : String
  alternatives : List String
  version : String
deriving Repr, DecidableEq

/-- The `builtInDeprecated` table of `dependencyResolutionTool`. -/
def builtInDeprecated : List (String × BuiltInInfo) :=
  [ ("imp", ⟨true,
      "The imp module is deprecated since Python 3.4 and removed in Python 3.12",
      ["importlib"], "built-in"⟩),
    ("optparse", ⟨true,
      "optparse is deprecated since Python 2.7 in favor of argparse",
      ["argparse", "click", "typer"], "built-in"⟩),
    ("distutils", ⟨true,
      "distutils is deprecated since Python 3.10 and removed in Python 3.12",
      ["setuptools", "build", "hatchling"], "built-in"⟩) ]

/-- What one iteration of the requirements loop appends to the
`resolved_packages`, `deprecated_packages` and `warnings` arrays. -/
structure ReqContribution where
  resolved : List ResolvedPackage
  deprecated : List DeprecatedPackage
  warnings : List String
deriving Repr, DecidableEq

/-- Embedding of the body of `for (const req of requirements)` in
`dependencyResolutionTool.execute`: name validation, the built-in-module
shortcut, the PyPI lookup, the operator-specific version policy, and the
deprecation check.  The loop body never throws in this pure model, so the
per-iteration `catch` is dead. -/
def processRequirement (registry : Registry) (req : Requirement) : ReqContribution :=
  let cleanName := jsTrim req.name
  if cleanName = "" then
    { resolved := [], deprecated := [],
      warnings := ["Empty package name provided: '" ++ req.name ++ "'"] }
  else
    match builtInDeprecated.lookup (jsToLower cleanName) with
    | some builtInInfo =>
        { resolved := [⟨cleanName, builtInInfo.version⟩],
          deprecated :=
            if builtInInfo.deprecated then
              [⟨cleanName, builtInInfo.version, builtInInfo.reason,
                builtInInfo.alternatives.head?⟩]
            else [],
          warnings := [] }
    | none =>
      match pypiLookup registry cleanName with
      | .error e =>
          { resolved := [], deprecated := [],
            warnings := ["Could not find package '" ++ cleanName ++ "': " ++ e] }
      | .ok latest =>
          let resolvedVersion :=
            if jsTruthy req.version && jsTruthyStr req.operator then
              if (req.operator == "==") || req.fixed then
                req.version.getD ""
              else if (req.operator == ">=") || (req.operator == ">") then
                jsOr latest (req.version.getD "")
              else
                jsOr (req.version.getD "") (jsOr latest "unknown")
            else
              jsOr latest "unknown"
          let deprecationCheck := packageDeprecationAnalysis cleanName
          { resolved := [⟨cleanName, resolvedVersion⟩],
            deprecated :=
              if deprecationCheck.success && deprecationCheck.is_deprecated then
                [⟨cleanName, resolvedVersion,
                  jsOr deprecationCheck.reason "Package is deprecated",
                  deprecationCheck.alternatives.head?⟩]
              else [],
            warnings := [] }

/-- The duplicate scan at the end of `dependencyResolutionTool.execute`:
walk the resolved names with a `Set` of seen names, pushing every name
already seen onto `duplicatePackages`. -/
def duplicateScan (seen : List String) : List String → List String
  | [] => []
  | n :: ns => if n ∈ seen then n :: duplicateScan seen ns else duplicateScan (n :: seen) ns

/-- The object returned by `dependencyResolutionTool.execute`
(`ResolutionResult` of `shared.ts`).  Fields that the code sets to
`undefined` (via `xs.length > 0 ? xs : undefined`) are `none`.  The
`processing_time_ms` metadata field is wall-clock only and not modelled. -/
structure ResolutionOutcome where
  success : Bool
  resolved_packages : Option (List ResolvedPackage)
  deprecated_packages : Option (List DeprecatedPackage)
  conflicts : Option (List Conflict)
  error : Option String
  warnings : Option (List String)
deriving Repr, DecidableEq

/-- The `resolved_packages` array after the requirements loop: the
concatenation of the per-requirement contributions. -/
def resolutionResolved (registry : Registry) (requirements : List Requirement) :
    List ResolvedPackage :=
  (requirements.map (processRequirement registry)).flatMap ReqContribution.resolved

/-- The `deprecated_packages` array after the requirements loop. -/
def resolutionDeprecated (registry : Registry) (requirements : List Requirement) :
    List DeprecatedPackage :=
  (requirements.map (processRequirement registry)).flatMap ReqContribution.deprecated

/-- The `warnings` array after the requirements loop. -/
def resolutionWarnings (registry : Registry) (requirements : List Requirement) :
    List String :=
  (requirements.map (processRequirement registry)).flatMap ReqContribution.warnings

/-- The `duplicatePackages` array of the conflict-detection scan. -/
def resolutionDuplicates (registry : Registry) (requirements : List Requirement) :
    List String :=
  duplicateScan [] ((resolutionResolved registry requirements).map ResolvedPackage.name)

/-- The `conflicts` array: one entry covering all duplicate names, when
any duplicate exists. -/
def resolutionConflicts (registry : Registry) (requirements : List Requirement) :
    List Conflict :=
  if (resolutionDuplicates registry requirements).isEmpty then []
  else [⟨resolutionDuplicates registry requirements,
         "Multiple requirements for the same package found",
         some "Review and consolidate duplicate package requirements"⟩]

/-- Embedding of `dependencyResolutionTool.execute`: the empty-input early
return, the per-requirement loop, the duplicate-name conflict scan, and
the final `success`/`error` computation. -/
def dependencyResolution (registry : Registry) (requirements : List Requirement) :
    ResolutionOutcome :=
  if requirements.isEmpty then
    { success := false, resolved_packages := none, deprecated_packages := none,
      conflicts := none, error := some "No requirements provided", warnings := none }
  else
    let resolved_packages := resolutionResolved registry requirements
    let deprecated_packages := resolutionDeprecated registry requirements
    let warnings := resolutionWarnings registry requirements
    let conflicts := resolutionConflicts registry requirements
    let hasSignificantIssues := !conflicts.isEmpty
    let hasUsefulResults := !resolved_packages.isEmpty || !deprecated_packages.isEmpty
    let success := !hasSignificantIssues && hasUsefulResults
    { success := success,
      resolved_packages := some resolved_packages,
      deprecated_packages :=
        if deprecated_packages.isEmpty then none else some deprecated_packages,
      conflicts := if conflicts.isEmpty then none else some conflicts,
      error :=
        if !success && hasSignificantIssues then
          some ("Found " ++ toString conflicts.length ++ " conflicts")
        else if !success && !hasUsefulResults then
          some "No packages could be resolved"
        else none,
      warnings := if warnings.isEmpty then none else some warnings }

/-! ## `requirementsGeneratorTool` -/

/-- A `resolved_packages` element of `requirementsGeneratorTool`'s
parameters: `{name, version, source}`. -/
structure GenPackage where
  name : String
  version : String
  source : String
deriving Repr, DecidableEq

/-- Codepoint-wise lexicographic three-way comparison of character
lists. -/
def cmpChars : List Char → List Char → Int
  | [], [] => 0
  | [], _ :: _ => -1
  | _ :: _, [] => 1
  | a :: as, b :: bs =>
      if a < b then -1 else if b < a then 1 else cmpChars as bs

/-- Model of JavaScript `a.localeCompare(b)` as used on package names:
negative, zero or positive according to string order.  (The default
locale collation agrees with this codepoint order on the lowercase ASCII
names this tool receives; equality — the case the stability of the sort
depends on — is exact in either reading.) -/
def localeCompare (a b : String) : Int := cmpChars a.data b.data

/-- Insert into a sorted list, keeping the new element after any element
that does not compare strictly greater — the placement a stable sort
gives to later-arriving elements. -/
def sortInsert (x : GenPackage) : List GenPackage → List GenPackage
  | [] => [x]
  | y :: ys => if localeCompare x.name y.name < 0 then x :: y :: ys else y :: sortInsert x ys

/-- Model of `[...resolved_packages].sort((a, b) => a.name.localeCompare(b.name))`:
JavaScript `Array.prototype.sort` is stable, which this left-to-right
insertion sort reproduces. -/
def sortPackages (l : List GenPackage) : List GenPackage :=
  l.foldl (fun acc x => sortInsert x acc) []

/-- The string appended for one package inside the generator's output
loop: `name`, then `==` or `>=` according to `pin_versions`, the version,
and a provenance comment when the source is present and not `"pypi"`. -/
def pkgLine (include_comments pin_versions : Bool) (pkg : GenPackage) : String :=
  pkg.name ++ (if pin_versions then "==" else ">=") ++ pkg.version ++
    (if include_comments && pkg.source ≠ "" && pkg.source ≠ "pypi" then
      "  # " ++ pkg.source
    else "") ++ "\n"

/-- Embedding of `requirementsGeneratorTool.execute`, returning the
`requirements_txt` string.  `now` stands for `new Date().toISOString()`. -/
def requirementsGenerator (resolved_packages : List GenPackage)
    (include_comments pin_versions : Bool) (now : String) : String :=
  let header :=
    if include_comments then
      "# Python Requirements File\n" ++
      "# Generated on: " ++ now ++ "\n" ++
      "# Total packages: " ++ toString resolved_packages.length ++ "\n" ++
      "#\n" ++
      "# Install with: pip install -r requirements.txt\n" ++
      "#\n\n"
    else ""
  let body := String.join ((sortPackages resolved_packages).map (pkgLine include_comments pin_versions))
  let footer :=
    if include_comments && resolved_packages.length > 0 then "\n# End of requirements\n"
    else ""
  header ++ body ++ footer

/-! ## `shared.ts`: the submission schema -/

/-- A parsed `ResolutionRequest` (after zod defaults). -/
structure ResolutionRequest where
  requirements : List Requirement
  python_version : String
  allow_prereleases : Bool
  prefer_stable : Bool
  exclude_deprecated : Bool
  suggest_alternatives : Bool
deriving Repr, DecidableEq

/-- A structurally well-typed request body before zod defaults are
applied.  (Per-requirement defaults — `operator`, `fixed` — work the same
way and are irrelevant to the properties below, so requirements arrive
typed.) -/
structure RawResolutionRequest where
  requirements : List Requirement
  python_version : Option String
  allow_prereleases : Option Bool
  prefer_stable : Option Bool
  exclude_deprecated : Option Bool
  suggest_alternatives : Option Bool
deriving Repr, DecidableEq

/-- Embedding of `ResolutionRequestSchema.parse` on a structurally
well-typed body: the schema declares `requirements: z.array(...)` with no
minimum-length refinement, so parsing only fills in defaults and never
fails on account of the list length. -/
def resolutionRequestSchemaParse (raw : RawResolutionRequest) :
    Except String ResolutionRequest :=
  .ok { requirements := raw.requirements,
        python_version := raw.python_version.getD "3.9",
        allow_prereleases := raw.allow_prereleases.getD false,
        prefer_stable := raw.prefer_stable.getD true,
        exclude_deprecated := raw.exclude_deprecated.getD true,
        suggest_alternatives := raw.suggest_alternatives.getD true }

/-! ## Package research results (`services/package-research.ts`)

The research phase is network-bound (PyPI fetch, web searches); its
outcome enters the pipeline model as data.  Of a `PackageResearchResult`
the pipeline reads only `pypi_info` (success with `latest_version` and
the `versions` list, or an error marker) and `deprecation_analysis`; the
two search blobs are consumed nowhere downstream and are omitted. -/

/-- The `deprecation_analysis` block of a research result. -/
structure DeprecationAnalysis where
  is_deprecated : Bool
  confidence : ℚ
  evidence : List String
  alternatives : List String
deriving Repr, DecidableEq

/-- The part of `pypi_info` the pipeline consumes (`versions` entries are
rich objects in the source; only their count is read downstream, so they
are carried as version strings). -/
structure ResearchPyPIInfo where
  latest_version : String
  versions : List String
deriving Repr, DecidableEq

deriving instance DecidableEq for Except

/-- A successful `PackageResearchResult` as consumed downstream. -/
structure ResearchResult where
  pypi_info : Except String ResearchPyPIInfo
  deprecation_analysis : Option DeprecationAnalysis
deriving Repr, DecidableEq

/-- The map built by `researchMultiplePackages`: insertion-ordered
name/result pairs; a per-package failure is an `{error}` marker. -/
abbrev ResearchMap := List (String × Except String ResearchResult)

/-- JavaScript `Math.round` on the rationals that reach it (non-negative
confidences): half-up rounding. -/
def mathRound (q : ℚ) : ℤ := ⌊q + 1/2⌋

/-- Embedding of `PackageResearchService.generatePackageAnalysis`. -/
def generatePackageAnalysis (research : Except String ResearchResult) : String :=
  match research with
  | .error e => "Error: " ++ e
  | .ok r =>
      let analysis :=
        (match r.pypi_info with
         | .ok info => "PyPI package with " ++ toString info.versions.length ++ " versions. "
         | .error _ => "") ++
        (match r.deprecation_analysis with
         | some d =>
             if d.is_deprecated then
               "⚠️ DEPRECATED (confidence: " ++ toString (mathRound (d.confidence * 100)) ++ "%). " ++
               (if d.alternatives.length > 0 then
                 "Consider: " ++ String.intercalate ", " d.alternatives ++ ". "
               else "")
             else ""
         | none => "")
      jsOr analysis "No specific issues found."

/-! ## The orchestrating agent (`DependencyResolverAgent`) -/

/-- Embedding of the deprecation-enhancement step inside
`resolveDependencies`: when the tool returned a `resolved_packages`
array, recompute `deprecated_packages` from the research results and
overwrite the field when the recomputed list is non-empty. -/
def enhanceResolution (r : ResolutionOutcome) (researchResults : ResearchMap) :
    ResolutionOutcome :=
  match r.resolved_packages with
  | none => r
  | some pkgs =>
      let deprecatedPackages := pkgs.flatMap (fun pkg =>
        match researchResults.lookup pkg.name with
        | some (.ok research) =>
            match research.deprecation_analysis with
            | some d =>
                if d.is_deprecated then
                  [DeprecatedPackage.mk pkg.name pkg.version
                    (String.intercalate "; " d.evidence) d.alternatives.head?]
                else []
            | none => []
        | _ => [])
      if deprecatedPackages.isEmpty then r
      else { r with deprecated_packages := some deprecatedPackages }

/-- Embedding of `DependencyResolverAgent.resolveDependencies`.
`toolOutcome` is the outcome of awaiting
`tools.dependency_resolution.execute`: in the pure embedding the normal
case is `.ok (dependencyResolution registry request.requirements)`, while
`.error` models a runtime-level rejection — which the surrounding `catch`
converts into a `ResolutionResult` with `success: false` instead of
rethrowing. -/
def resolveDependencies (request : ResolutionRequest) (researchResults : ResearchMap)
    (toolOutcome : Except String ResolutionOutcome) : ResolutionOutcome :=
  match toolOutcome with
  | .ok resolutionResult => enhanceResolution resolutionResult researchResults
  | .error e =>
      { success := false, resolved_packages := none, deprecated_packages := none,
        conflicts := none, error := some e, warnings := none }

/-- One `package_analysis` entry of a report (`security_notes` and
`compatibility_notes` are always empty in the source). -/
structure PackageAnalysisEntry where
  name : String
  current_version : String
  recommended_version : String
  analysis : String
deriving Repr, DecidableEq

/-- The `metadata` block of a report. -/
structure ReportMetadata where
  python_version : String
  total_packages : Nat
  deprecated_count : Nat
  conflict_count : Nat
  processing_time_ms : Nat
deriving Repr, DecidableEq

/-- A `DependencyReport` as stored by the pipeline. -/
structure DependencyReport where
  id : String
  created_at : String
  request : ResolutionRequest
  result : ResolutionOutcome
  requirements_txt : String
  detailed_report : String
  package_analysis : List PackageAnalysisEntry
  metadata : ReportMetadata
deriving Repr, DecidableEq

/-- Embedding of `generateDetailedReport` (the narrative markdown
document; the unusual literal characters are copied verbatim from the
source file). -/
def generateDetailedReport (request : ResolutionRequest)
    (resolutionResult : ResolutionOutcome) (now : String) : String :=
  let report := "# Python Dependency Resolution Report\n\n" ++
    "**Generated:** " ++ now ++ "\n" ++
    "**Python Version:** " ++ request.python_version ++ "\n" ++
    "**Total Packages:** " ++ toString request.requirements.length ++ "\n\n" ++
    "## Summary\n\n" ++
    (if resolutionResult.success then "‚úÖ **Resolution Status:** Successful\n"
     else "‚ùå **Resolution Status:** Failed\n") ++
    (match resolutionResult.conflicts with
     | some cs => if cs.length > 0 then "‚ö†Ô∏è **Conflicts:** " ++ toString cs.length ++ "\n" else ""
     | none => "") ++
    (match resolutionResult.deprecated_packages with
     | some ds => if ds.length > 0 then "üîÑ **Deprecated Packages:** " ++ toString ds.length ++ "\n" else ""
     | none => "")
  let report := report ++
    (match resolutionResult.resolved_packages with
     | some pkgs =>
         if pkgs.length > 0 then
           "\n## Resolved Packages\n\n" ++
           String.join (pkgs.map (fun pkg => "- **" ++ pkg.name ++ "** = " ++ pkg.version ++ "\n"))
         else ""
     | none => "")
  let report := report ++
    (match resolutionResult.deprecated_packages with
     | some ds =>
         if ds.length > 0 then
           "\n## ‚ö†Ô∏è Deprecated Packages\n\n" ++
           String.join (ds.map (fun pkg =>
             "### " ++ pkg.name ++ "\n" ++
             "- **Version:** " ++ pkg.version ++ "\n" ++
             "- **Reason:** " ++ pkg.reason ++ "\n" ++
             (match pkg.suggested_alternative with
              | some alt => "- **Suggested Alternative:** " ++ alt ++ "\n"
              | none => "") ++ "\n"))
         else ""
     | none => "")
  report ++
    (match resolutionResult.conflicts with
     | some cs =>
         if cs.length > 0 then
           "\n## ‚ùå Conflicts\n\n" ++
           String.join (cs.map (fun conflict =>
             "### " ++ String.intercalate ", " conflict.packages ++ "\n" ++
             "**Reason:** " ++ conflict.reason ++ "\n" ++
             (match conflict.suggested_resolution with
              | some s => "**Suggested Resolution:** " ++ s ++ "\n"
              | none => "") ++ "\n"))
         else ""
     | none => "")

/-- Embedding of `DependencyResolverAgent.generateReport`.  `now` stands
for the report timestamps, `processing_time_ms` for `Date.now() -
startTime`.  The requirements generator is always invoked with
`include_comments: true` and `pin_versions: true`, over the resolved
packages tagged with `source: "pypi"`; when `resolved_packages` is
absent, `requirements_txt` stays `""`. -/
def generateReport (reportId : String) (request : ResolutionRequest)
    (resolutionResult : ResolutionOutcome) (researchResults : ResearchMap)
    (now : String) (processing_time_ms : Nat) : DependencyReport :=
  let requirementsTxt :=
    match resolutionResult.resolved_packages with
    | some pkgs =>
        requirementsGenerator (pkgs.map (fun pkg => GenPackage.mk pkg.name pkg.version "pypi"))
          true true now
    | none => ""
  let packageAnalysis := researchResults.map (fun entry =>
    let name := entry.1
    let research := entry.2
    let resolvedPkg := (resolutionResult.resolved_packages.getD []).find?
      (fun p => p.name = name)
    { name := name,
      current_version :=
        match research with
        | .ok r =>
            match r.pypi_info with
            | .ok info => jsOr info.latest_version "unknown"
            | .error _ => "unknown"
        | .error _ => "unknown",
      recommended_version :=
        match resolvedPkg with
        | some p => jsOr p.version "unresolved"
        | none => "unresolved",
      analysis := generatePackageAnalysis research })
  { id := reportId,
    created_at := now,
    request := request,
    result := resolutionResult,
    requirements_txt := requirementsTxt,
    detailed_report := generateDetailedReport request resolutionResult now,
    package_analysis := packageAnalysis,
    metadata :=
      { python_version := request.python_version,
        total_packages := request.requirements.length,
        deprecated_count := (resolutionResult.deprecated_packages.getD []).length,
        conflict_count := (resolutionResult.conflicts.getD []).length,
        processing_time_ms := processing_time_ms } }

/-! ## Job storage and the state machine -/

/-- A record stored under `report:<id>` in `REPORTS_STORAGE`: the initial
processing status written by `handleResolutionRequest`, a completed
`DependencyReport` written by `storeReport`, or the failed-status record
written by `storeError`. -/
inductive StoredRecord where
  | processing (id : String) (created_at : String) (request : ResolutionRequest)
  | report (r : DependencyReport)
  | errorReport (id : String) (error : String) (created_at : String)
deriving Repr, DecidableEq

/-- Whether a stored record carries `status: "processing"`. -/
def StoredRecord.isProcessing : StoredRecord → Bool
  | .processing .. => true
  | _ => false

/-- Embedding of `storeError`: one `put` of the failed-status record; a
storage failure is caught and logged, leaving nothing written. -/
def storeErrorWrites (reportId error now : String) (putOk : Bool) : List StoredRecord :=
  if putOk then [.errorReport reportId error now] else []

/-- Embedding of `processResolution` as the sequence of job-store writes
it performs.  `researchOutcome` is the research phase (which may throw),
`toolOutcome` the awaited resolution-tool call, `storeReportError` the
outcome of `storeReport`'s `put` (`none` = success, `some e` = the `put`
rejected with message `e`, which `storeReport` rethrows), and
`storeErrorPutOk` the outcome of `storeError`'s `put`.  Exceptions inside
the resolution phase never reach the surrounding `catch`
(`resolveDependencies` absorbs them), so the `failed` record is written
only when the research phase or the report store throws. -/
def processResolutionWrites (reportId : String) (request : ResolutionRequest)
    (researchOutcome : Except String ResearchMap)
    (toolOutcome : Except String ResolutionOutcome)
    (storeReportError : Option String) (storeErrorPutOk : Bool)
    (now : String) (processing_time_ms : Nat) : List StoredRecord :=
  match researchOutcome with
  | .error e => storeErrorWrites reportId e now storeErrorPutOk
  | .ok researchResults =>
      let resolutionResult := resolveDependencies request researchResults toolOutcome
      let report := generateReport reportId request resolutionResult researchResults
        now processing_time_ms
      match storeReportError with
      | none => [.report report]
      | some e => storeErrorWrites reportId e now storeErrorPutOk

/-- The pipeline on its normal course: research succeeded with
`researchResults` and the resolution tool ran to completion, i.e.
`toolOutcome = .ok (dependencyResolution registry request.requirements)`. -/
def pipelineWrites (registry : Registry) (reportId : String)
    (request : ResolutionRequest) (researchResults : ResearchMap)
    (storeReportError : Option String) (storeErrorPutOk : Bool)
    (now : String) (processing_time_ms : Nat) : List StoredRecord :=
  processResolutionWrites reportId request (.ok researchResults)
    (.ok (dependencyResolution registry request.requirements))
    storeReportError storeErrorPutOk now processing_time_ms

/-- The response body of a successful submission. -/
structure SubmitResponse where
  id : String
  status : String
  message : String
deriving Repr, DecidableEq

/-- What `handleResolutionRequest` did for a submission. -/
structure SubmitResult where
  initialWrite : StoredRecord
  pipelineLaunched : Bool
  response : SubmitResponse
deriving Repr, DecidableEq

/-- Embedding of `handleResolutionRequest`: parse the body with
`ResolutionRequestSchema` (a zod failure propagates as the thrown error),
write the initial `status: "processing"` record, hand the pipeline to
`ctx.waitUntil` without awaiting it, and reply `{id, status:
"processing", message}`. -/
def handleResolutionRequest (raw : RawResolutionRequest) (reportId now : String) :
    Except String SubmitResult :=
  match resolutionRequestSchemaParse raw with
  | .error e => .error e
  | .ok resolutionRequest =>
      .ok { initialWrite := .processing reportId now resolutionRequest,
            pipelineLaunched := true,
            response :=
              { id := reportId, status := "processing",
                message := "Dependency resolution started. Use the /status endpoint to check progress." } }

/-- The three-way response of the status endpoint (plus not-found). -/
inductive StatusResponse where
  | notFound
  | processing (id : String) (created_at : String) (request : ResolutionRequest)
  | failed (id : String) (error : String) (created_at : String)
  | completed (r : DependencyReport)
deriving Repr, DecidableEq

/-- Embedding of `getResolutionStatus` over the stored record (if any):
no record → 404; `data.status === "processing"` → processing;
`data.error && !data.result` (the `storeError` record) → failed;
otherwise the stored report with `status: "completed"` appended. -/
def getResolutionStatus (reportId : String) (stored : Option StoredRecord) :
    StatusResponse :=
  match stored with
  | none => StatusResponse.notFound
  | some (.processing _ created_at request) =>
      StatusResponse.processing reportId created_at request
  | some (.errorReport _ e created_at) => StatusResponse.failed reportId e created_at
  | some (.report r) => StatusResponse.completed r

/-- Whether a status response reports a terminal state. -/
def isTerminalResponse : StatusResponse → Bool
  | .failed .. => true
  | .completed _ => true
  | _ => false

/-- The `result` field visible in a completed status response. -/
def responseResult : StatusResponse → Option ResolutionOutcome
  | .completed r => some r.result
  | _ => none

/-- All writes one job's key receives, in order: the initial processing
record from `handleResolutionRequest` (whose `put` failure is caught and
ignored), then whatever `processResolution` writes.  Nothing else ever
writes this key. -/
def jobWrites (initialPutOk : Bool) (reportId : String) (request : ResolutionRequest)
    (submitTime : String) (researchOutcome : Except String ResearchMap)
    (toolOutcome : Except String ResolutionOutcome)
    (storeReportError : Option String) (storeErrorPutOk : Bool)
    (now : String) (processing_time_ms : Nat) : List StoredRecord :=
  (if initialPutOk then [StoredRecord.processing reportId submitTime request] else []) ++
  processResolutionWrites reportId request researchOutcome toolOutcome
    storeReportError storeErrorPutOk now processing_time_ms

/-- The status a poll observes after the first `k` writes have landed:
the stored value is the last write so far. -/
def pollAt (reportId : String) (writes : List StoredRecord) (k : Nat) : StatusResponse :=
  getResolutionStatus reportId ((writes.take k).getLast?)

/-! ## Helper lemmas -/

/-- Membership in the duplicate scan: a name is emitted exactly when it
was already seen and occurs again, or occurs at least twice in the
remaining names. -/
theorem mem_duplicateScan (n : String) :
    ∀ (ns seen : List String),
      n ∈ duplicateScan seen ns ↔ (n ∈ seen ∧ n ∈ ns) ∨ 2 ≤ ns.count n := by
  intro ns
  induction ns with
  | nil => intro seen; simp [duplicateScan]
  | cons m ns ih =>
    intro seen
    by_cases hm : m ∈ seen
    · rw [duplicateScan, if_pos hm]
      by_cases hn : n = m
      · subst hn
        exact iff_of_true (List.mem_cons_self _ _) (Or.inl ⟨hm, List.mem_cons_self _ _⟩)
      · rw [List.mem_cons, or_iff_right hn, ih, List.mem_cons, or_iff_right hn,
          List.count_cons, if_neg (by simpa using Ne.symm hn), Nat.add_zero]
    · rw [duplicateScan, if_neg hm, ih]
      by_cases hn : n = m
      · subst hn
        rw [List.count_cons, if_pos (by simp)]
        constructor
        · rintro (⟨hseen, hmem⟩ | hcount)
          · right
            have := List.count_pos_iff.mpr hmem
            omega
          · right; omega
        · rintro (⟨hseen, _⟩ | hcount)
          · exact absurd hseen hm
          · rcases Nat.lt_or_ge (ns.count n) 1 with h | h
            · omega
            · left
              exact ⟨List.mem_cons_self _ _, List.count_pos_iff.mp (by omega)⟩
      · rw [List.count_cons, if_neg (by simpa using Ne.symm hn), Nat.add_zero,
          List.mem_cons, or_iff_right hn, List.mem_cons, or_iff_right hn]

theorem dependencyResolution_resolved (registry : Registry)
    (requirements : List Requirement) (h : requirements ≠ []) :
    (dependencyResolution registry requirements).resolved_packages =
      some (resolutionResolved registry requirements) := by
  rw [dependencyResolution, if_neg (by simpa using h)]

theorem dependencyResolution_deprecated (registry : Registry)
    (requirements : List Requirement) (h : requirements ≠ []) :
    (dependencyResolution registry requirements).deprecated_packages =
      (if (resolutionDeprecated registry requirements).isEmpty then none
       else some (resolutionDeprecated registry requirements)) := by
  rw [dependencyResolution, if_neg (by simpa using h)]

theorem dependencyResolution_conflicts (registry : Registry)
    (requirements : List Requirement) (h : requirements ≠ []) :
    (dependencyResolution registry requirements).conflicts =
      (if (resolutionConflicts registry requirements).isEmpty then none
       else some (resolutionConflicts registry requirements)) := by
  rw [dependencyResolution, if_neg (by simpa using h)]

theorem dependencyResolution_warnings (registry : Registry)
    (requirements : List Requirement) (h : requirements ≠ []) :
    (dependencyResolution registry requirements).warnings =
      (if (resolutionWarnings registry requirements).isEmpty then none
       else some (resolutionWarnings registry requirements)) := by
  rw [dependencyResolution, if_neg (by simpa using h)]

theorem dependencyResolution_success (registry : Registry)
    (requirements : List Requirement) (h : requirements ≠ []) :
    (dependencyResolution registry requirements).success =
      (!(!(resolutionConflicts registry requirements).isEmpty) &&
        (!(resolutionResolved registry requirements).isEmpty ||
         !(resolutionDeprecated registry requirements).isEmpty)) := by
  rw [dependencyResolution, if_neg (by simpa using h)]

theorem dependencyResolution_error (registry : Registry)
    (requirements : List Requirement) (h : requirements ≠ []) :
    (dependencyResolution registry requirements).error =
      (if !(dependencyResolution registry requirements).success &&
           !(resolutionConflicts registry requirements).isEmpty then
        some ("Found " ++ toString (resolutionConflicts registry requirements).length ++ " conflicts")
      else if !(dependencyResolution registry requirements).success &&
           !(!(resolutionResolved registry requirements).isEmpty ||
             !(resolutionDeprecated registry requirements).isEmpty) then
        some "No packages could be resolved"
      else none) := by
  rw [dependencyResolution_success registry requirements h,
    dependencyResolution, if_neg (by simpa using h)]

/-- The name ordering the generator sorts by. -/
def nameLe (a b : GenPackage) : Prop := a.name ≤ b.name

theorem cmpChars_lt_iff : ∀ (l1 l2 : List Char), cmpChars l1 l2 < 0 ↔ l1 < l2 := by
  intro l1
  induction l1 with
  | nil =>
    intro l2
    cases l2 with
    | nil =>
      constructor
      · intro h; exact absurd h (by simp [cmpChars])
      · intro h; cases h
    | cons b bs =>
      constructor
      · intro _; exact List.Lex.nil
      · intro _; simp [cmpChars]
  | cons a as ih =>
    intro l2
    cases l2 with
    | nil =>
      constructor
      · intro h; simp [cmpChars] at h
      · intro h; cases h
    | cons b bs =>
      by_cases hab : a < b
      · simp only [cmpChars, if_pos hab]
        constructor
        · intro _; exact List.Lex.rel hab
        · intro _; omega
      · by_cases hba : b < a
        · simp only [cmpChars, if_neg hab, if_pos hba]
          constructor
          · intro h; omega
          · intro h
            cases h with
            | cons h3 => exact absurd hba (lt_irrefl a)
            | rel hr => exact absurd hr hab
        · simp only [cmpChars, if_neg hab, if_neg hba]
          have heq : a = b := le_antisymm (le_of_not_lt hba) (le_of_not_lt hab)
          subst heq
          rw [ih bs]
          constructor
          · exact fun h => List.Lex.cons h
          · intro h
            cases h with
            | cons h3 => exact h3
            | rel hr => exact absurd hr hab

theorem localeCompare_lt_iff (a b : String) : localeCompare a b < 0 ↔ a < b := by
  rw [localeCompare, cmpChars_lt_iff]
  exact String.lt_iff_toList_lt.symm

theorem sortInsert_perm (x : GenPackage) (l : List GenPackage) :
    (sortInsert x l).Perm (x :: l) := by
  induction l with
  | nil => exact List.Perm.refl _
  | cons y ys ih =>
    rw [sortInsert]
    split
    · exact List.Perm.refl _
    · exact (ih.cons y).trans (List.Perm.swap x y ys)

theorem foldl_sortInsert_perm (l : List GenPackage) :
    ∀ acc, (l.foldl (fun a x => sortInsert x a) acc).Perm (acc ++ l) := by
  induction l with
  | nil => intro acc; simp
  | cons x xs ih =>
    intro acc
    have h1 : ((x :: xs).foldl (fun a x => sortInsert x a) acc) =
        xs.foldl (fun a x => sortInsert x a) (sortInsert x acc) := rfl
    rw [h1]
    exact (ih _).trans
      (((sortInsert_perm x acc).append_right xs).trans List.perm_middle.symm)

theorem sortPackages_perm (l : List GenPackage) : (sortPackages l).Perm l :=
  foldl_sortInsert_perm l []

theorem sortInsert_sorted (x : GenPackage) (l : List GenPackage)
    (h : l.Pairwise nameLe) : (sortInsert x l).Pairwise nameLe := by
  induction l with
  | nil => simp [sortInsert, nameLe]
  | cons y ys ih =>
    rw [sortInsert]
    rcases List.pairwise_cons.mp h with ⟨hy, hys⟩
    split
    · rename_i hc
      have hxy : x.name < y.name := (localeCompare_lt_iff _ _).mp hc
      refine List.pairwise_cons.mpr ⟨?_, h⟩
      intro z hz
      rcases List.mem_cons.mp hz with rfl | hz
      · exact le_of_lt hxy
      · exact le_trans (le_of_lt hxy) (hy z hz)
    · rename_i hc
      have hyx : y.name ≤ x.name :=
        le_of_not_lt ((localeCompare_lt_iff x.name y.name).not.mp hc)
      refine List.pairwise_cons.mpr ⟨?_, ih hys⟩
      intro z hz
      rcases List.mem_cons.mp ((sortInsert_perm x ys).mem_iff.mp hz) with rfl | hz2
      · exact hyx
      · exact hy z hz2

theorem sortPackages_sorted (l : List GenPackage) :
    (sortPackages l).Pairwise nameLe := by
  have aux : ∀ (l acc : List GenPackage), acc.Pairwise nameLe →
      (l.foldl (fun a x => sortInsert x a) acc).Pairwise nameLe := by
    intro l
    induction l with
    | nil => intro acc hacc; exact hacc
    | cons x xs ih => intro acc hacc; exact ih _ (sortInsert_sorted x acc hacc)
  exact aux l [] (by simp)

/-- Two sorted lists that are permutations of each other and whose names
are pairwise distinct are equal. -/
theorem sorted_perm_nodup_eq :
    ∀ (l1 l2 : List GenPackage), l1.Perm l2 → l1.Pairwise nameLe →
      l2.Pairwise nameLe → (l1.map GenPackage.name).Nodup → l1 = l2 := by
  intro l1
  induction l1 with
  | nil => intro l2 hp _ _ _; exact hp.symm.eq_nil.symm
  | cons x xs ih =>
    intro l2 hp hs1 hs2 hnd
    cases l2 with
    | nil => exact absurd hp.eq_nil (by simp)
    | cons y ys =>
      rw [List.map_cons] at hnd
      rcases List.nodup_cons.mp hnd with ⟨hnotin, hnd2⟩
      rcases List.pairwise_cons.mp hs1 with ⟨hx, hxs⟩
      rcases List.pairwise_cons.mp hs2 with ⟨hy, hys⟩
      have hyx : y ∈ x :: xs := hp.mem_iff.mpr (List.mem_cons_self _ _)
      have hxy : x ∈ y :: ys := hp.mem_iff.mp (List.mem_cons_self _ _)
      have hxyname : x.name = y.name := by
        rcases List.mem_cons.mp hxy with rfl | hmem
        · rfl
        · rcases List.mem_cons.mp hyx with rfl | hmem2
          · rfl
          · exact le_antisymm (hx y hmem2) (hy x hmem)
      have hxeqy : x = y := by
        rcases List.mem_cons.mp hyx with rfl | hmem2
        · rfl
        · exact absurd (hxyname ▸ List.mem_map_of_mem GenPackage.name hmem2) hnotin
      subst hxeqy
      have htail : xs.Perm ys := hp.cons_inv
      rw [ih ys htail hxs hys hnd2]

/-- `processResolution` performs at most one write, and that write is
never a `status: "processing"` record. -/
theorem processResolutionWrites_shape (reportId : String) (request : ResolutionRequest)
    (researchOutcome : Except String ResearchMap)
    (toolOutcome : Except String ResolutionOutcome)
    (storeReportError : Option String) (storeErrorPutOk : Bool)
    (now : String) (pt : Nat) :
    processResolutionWrites reportId request researchOutcome toolOutcome
        storeReportError storeErrorPutOk now pt = [] ∨
    ∃ r, processResolutionWrites reportId request researchOutcome toolOutcome
        storeReportError storeErrorPutOk now pt = [r] ∧ r.isProcessing = false := by
  rcases researchOutcome with e | researchResults <;>
  rcases storeReportError with _ | se <;>
  cases storeErrorPutOk <;>
  first
    | exact Or.inl rfl
    | exact Or.inr ⟨_, rfl, rfl⟩

theorem pollAt_nil (reportId : String) (k : Nat) :
    pollAt reportId [] k = StatusResponse.notFound := by
  simp [pollAt, getResolutionStatus]

theorem pollAt_one (reportId : String) (a : StoredRecord) (k : Nat) :
    pollAt reportId [a] k =
      if k = 0 then StatusResponse.notFound else getResolutionStatus reportId (some a) := by
  match k with
  | 0 => simp [pollAt, getResolutionStatus]
  | k + 1 => simp [pollAt]

theorem pollAt_two (reportId : String) (a b : StoredRecord) (k : Nat) :
    pollAt reportId [a, b] k =
      if k = 0 then StatusResponse.notFound
      else if k = 1 then getResolutionStatus reportId (some a)
      else getResolutionStatus reportId (some b) := by
  match k with
  | 0 => simp [pollAt, getResolutionStatus]
  | 1 => simp [pollAt]
  | k + 2 => simp [pollAt, List.take_succ_cons]

/-- A processing record polls as `processing`, which is not terminal. -/
theorem isTerminal_processing (reportId id created request) :
    isTerminalResponse (getResolutionStatus reportId
      (some (StoredRecord.processing id created request))) = false := rfl

theorem dependencyResolution_conflicts_getD (registry : Registry)
    (requirements : List Requirement) (h : requirements ≠ []) :
    (dependencyResolution registry requirements).conflicts.getD [] =
      resolutionConflicts registry requirements := by
  rw [dependencyResolution_conflicts _ _ h]
  split
  · next hc => exact (List.isEmpty_iff.mp hc).symm
  · next hc => rfl

theorem dependencyResolution_deprecated_getD (registry : Registry)
    (requirements : List Requirement) (h : requirements ≠ []) :
    (dependencyResolution registry requirements).deprecated_packages.getD [] =
      resolutionDeprecated registry requirements := by
  rw [dependencyResolution_deprecated _ _ h]
  split
  · next hc => exact (List.isEmpty_iff.mp hc).symm
  · next hc => rfl

theorem dependencyResolution_warnings_getD (registry : Registry)
    (requirements : List Requirement) (h : requirements ≠ []) :
    (dependencyResolution registry requirements).warnings.getD [] =
      resolutionWarnings registry requirements := by
  rw [dependencyResolution_warnings _ _ h]
  split
  · next hc => exact (List.isEmpty_iff.mp hc).symm
  · next hc => rfl

theorem dependencyResolution_resolved_getD (registry : Registry)
    (requirements : List Requirement) (h : requirements ≠ []) :
    (dependencyResolution registry requirements).resolved_packages.getD [] =
      resolutionResolved registry requirements := by
  rw [dependencyResolution_resolved _ _ h]; rfl

theorem resolutionResolved_append (registry : Registry) (l1 l2 : List Requirement) :
    resolutionResolved registry (l1 ++ l2) =
      resolutionResolved registry l1 ++ resolutionResolved registry l2 := by
  simp [resolutionResolved]

theorem resolutionDeprecated_append (registry : Registry) (l1 l2 : List Requirement) :
    resolutionDeprecated registry (l1 ++ l2) =
      resolutionDeprecated registry l1 ++ resolutionDeprecated registry l2 := by
  simp [resolutionDeprecated]

theorem resolutionWarnings_append (registry : Registry) (l1 l2 : List Requirement) :
    resolutionWarnings registry (l1 ++ l2) =
      resolutionWarnings registry l1 ++ resolutionWarnings registry l2 := by
  simp [resolutionWarnings]

/-! ## The claims -/

/-- C1 counterexample: with the registry knowing `requests@2.31.0`, the
input `[requests==1.0, requests==2.0]` yields a `resolved_packages` list
containing the name `requests` twice — the duplicate entries are kept,
alongside the single conflict entry — so the claim that a resolved set
contains each name at most once (duplicates replaced by a conflict) is
false as stated. -/
theorem c1_counterexample :
    (((dependencyResolution [("requests", "2.31.0")]
        [⟨"requests", "==", some "1.0", true, "requests==1.0"⟩,
         ⟨"requests", "==", some "2.0", true, "requests==2.0"⟩]).resolved_packages.getD []).map
      ResolvedPackage.name).count "requests" = 2 ∧
    (dependencyResolution [("requests", "2.31.0")]
        [⟨"requests", "==", some "1.0", true, "requests==1.0"⟩,
         ⟨"requests", "==", some "2.0", true, "requests==2.0"⟩]).conflicts =
      some [⟨["requests"], "Multiple requirements for the same package found",
            some "Review and consolidate duplicate package requirements"⟩] := by
  refine ⟨?_, ?_⟩ <;> rfl

/-- C1 (amended): duplicated requirement names are kept in
`resolved_packages`; the tool emits at most one `Conflict` entry, and a
name appears among the conflict's packages exactly when it occurs at
least twice (compared exactly, after trimming — not case-insensitively)
in the resolved list. -/
theorem c1_amended_thm (registry : Registry) (requirements : List Requirement)
    (nm : String) :
    ((dependencyResolution registry requirements).conflicts.getD []).length ≤ 1 ∧
    (nm ∈ ((dependencyResolution registry requirements).conflicts.getD []).flatMap
        Conflict.packages ↔
      2 ≤ (((dependencyResolution registry requirements).resolved_packages.getD []).map
        ResolvedPackage.name).count nm) := by
  rcases eq_or_ne requirements [] with rfl | h
  · exact ⟨by simp [dependencyResolution], by simp [dependencyResolution]⟩
  · rw [dependencyResolution_conflicts_getD _ _ h, dependencyResolution_resolved_getD _ _ h,
      resolutionConflicts]
    by_cases hdup : (resolutionDuplicates registry requirements).isEmpty
    · rw [if_pos hdup]
      refine ⟨by simp, ?_⟩
      have hd : resolutionDuplicates registry requirements = [] := List.isEmpty_iff.mp hdup
      simp only [List.flatMap_nil, List.not_mem_nil, false_iff]
      intro hcount
      have hmem : nm ∈ resolutionDuplicates registry requirements := by
        rw [resolutionDuplicates]
        exact (mem_duplicateScan nm _ []).mpr (Or.inr hcount)
      rw [hd] at hmem
      exact absurd hmem (List.not_mem_nil nm)
    · rw [if_neg hdup]
      refine ⟨by simp, ?_⟩
      simp only [List.flatMap_cons, List.flatMap_nil, List.append_nil]
      rw [resolutionDuplicates, mem_duplicateScan]
      simp

/-- C2: the tool's `success` flag is true exactly when the conflict list
is empty and at least one package was resolved or flagged deprecated;
conflict-only or empty outcomes are reported through this flag (the
execute path is total — it returns the failed result instead of
throwing). -/
theorem c2_success_iff (registry : Registry) (requirements : List Requirement) :
    ((dependencyResolution registry requirements).success = true) ↔
      ((dependencyResolution registry requirements).conflicts.getD [] = [] ∧
       ((dependencyResolution registry requirements).resolved_packages.getD [] ≠ [] ∨
        (dependencyResolution registry requirements).deprecated_packages.getD [] ≠ [])) := by
  rcases eq_or_ne requirements [] with rfl | h
  · simp [dependencyResolution]
  · rw [dependencyResolution_success _ _ h, dependencyResolution_conflicts_getD _ _ h,
      dependencyResolution_resolved_getD _ _ h, dependencyResolution_deprecated_getD _ _ h]
    simp [List.isEmpty_iff]

/-- C3 counterexample: a requirement with `fixed = true` but an empty
operator (`{name: "pandas", operator: "", version: "1.0", fixed: true}`)
is resolved to the registry's latest version `2.0.1`, not to the literal
requested version `1.0` — the `fixed` flag is only honoured when both
`version` and `operator` are truthy, so the claim is false as stated. -/
theorem c3_counterexample :
    (dependencyResolution [("pandas", "2.0.1")]
        [⟨"pandas", "", some "1.0", true, "pandas"⟩]).resolved_packages =
      some [⟨"pandas", "2.0.1"⟩] ∧ ("2.0.1" : String) ≠ "1.0" := by
  refine ⟨rfl, by decide⟩

/-- C3 (amended): for a requirement whose trimmed name is non-empty and
not a built-in module, whose registry lookup succeeds, and whose
`version` and `operator` are both non-empty, if the operator is `"=="`
or `fixed` is set then the resolved version is the literal requested
version byte-for-byte — whatever latest version the registry reports,
and with no existence check of that version. -/
theorem c3_amended_thm (registry : Registry) (req : Requirement) (v latest : String)
    (h1 : jsTrim req.name ≠ "")
    (h2 : builtInDeprecated.lookup (jsToLower (jsTrim req.name)) = none)
    (h3 : pypiLookup registry (jsTrim req.name) = .ok latest)
    (h4 : req.version = some v) (h5 : v ≠ "") (h6 : req.operator ≠ "")
    (h7 : req.operator = "==" ∨ req.fixed = true) :
    (processRequirement registry req).resolved = [⟨jsTrim req.name, v⟩] := by
  have hcond : (jsTruthy (some v) && jsTruthyStr req.operator) = true := by
    simp [jsTruthy, jsTruthyStr, h5, h6]
  have hop : ((req.operator == "==") || req.fixed) = true := by
    rcases h7 with h7 | h7 <;> simp [h7]
  simp only [processRequirement, if_neg h1, h2, h3, hcond, hop, if_true, h4,
    Option.getD_some]

/-- C3 witness. -/
theorem c3_amended_witness :
    (processRequirement [("requests", "2.31.0")]
        ⟨"requests", "==", some "1.0", true, "requests==1.0"⟩).resolved =
      [⟨jsTrim "requests", "1.0"⟩] :=
  c3_amended_thm [("requests", "2.31.0")]
    ⟨"requests", "==", some "1.0", true, "requests==1.0"⟩ "1.0" "2.31.0"
    (by decide) rfl rfl rfl (by decide) (by decide) (Or.inl rfl)

/-- C4 counterexample: a requirement with operator `<=` and version
`1.0`, against a registry whose latest `flask` is `2.0`, resolves to the
requested version `1.0`, not to the registry's latest — so "any other
operator resolves to the latest version unconditionally" is false as
stated. -/
theorem c4_counterexample :
    (dependencyResolution [("flask", "2.0")]
        [⟨"flask", "<=", some "1.0", false, "flask<=1.0"⟩]).resolved_packages =
      some [⟨"flask", "1.0"⟩] ∧ ("1.0" : String) ≠ "2.0" := by
  refine ⟨rfl, by decide⟩

/-- C4 (amended): for a requirement that is not built-in, resolves in the
registry, has `fixed = false` and an operator other than `"=="`, `">="`
and `">"`: when both `version` and `operator` are non-empty the resolved
version is the **requested** version; the registry's latest version (or
`"unknown"` when that is empty) is used only when the version or the
operator is absent/empty. -/
theorem c4_amended_thm (registry : Registry) (req : Requirement) (latest : String)
    (h1 : jsTrim req.name ≠ "")
    (h2 : builtInDeprecated.lookup (jsToLower (jsTrim req.name)) = none)
    (h3 : pypiLookup registry (jsTrim req.name) = .ok latest)
    (h4 : req.operator ≠ "==") (h5 : req.operator ≠ ">=") (h6 : req.operator ≠ ">")
    (h7 : req.fixed = false) :
    (processRequirement registry req).resolved =
      [⟨jsTrim req.name,
        if jsTruthy req.version && jsTruthyStr req.operator then req.version.getD ""
        else jsOr latest "unknown"⟩] := by
  by_cases hcond : (jsTruthy req.version && jsTruthyStr req.operator) = true
  · have hop : ((req.operator == "==") || req.fixed) = false := by
      simp [h4, h7]
    have hop2 : ((req.operator == ">=") || (req.operator == ">")) = false := by
      simp [h5, h6]
    have hver : jsOr (req.version.getD "") (jsOr latest "unknown") = req.version.getD "" := by
      have : jsTruthy req.version = true := by
        rcases Bool.and_eq_true_iff.mp hcond with ⟨hv, _⟩
        exact hv
      rw [jsOr, if_neg]
      intro hemp
      rw [jsTruthy, jsTruthyStr, hemp] at this
      simp at this
    simp only [processRequirement, if_neg h1, h2, h3, hcond, hop, hop2, if_true,
      Bool.false_eq_true, if_false, hver]
  · have hcond2 : (jsTruthy req.version && jsTruthyStr req.operator) = false :=
      Bool.not_eq_true _ ▸ Bool.eq_false_iff.mpr hcond
    simp only [processRequirement, if_neg h1, h2, h3, hcond2, Bool.false_eq_true, if_false]

/-- C5: evaluation of the code at the failing input `{"requirements": []}`
— `ResolutionRequestSchema` carries no minimum-length refinement, so an
empty requirement list parses successfully; `handleResolutionRequest`
writes the initial `processing` job record, launches the background
pipeline and replies `{id, status: "processing"}` instead of rejecting
the submission synchronously with a validation error. -/
theorem c5_empty_requirements_accepted :
    handleResolutionRequest ⟨[], none, none, none, none, none⟩ "job-1" "t0" =
      .ok { initialWrite := .processing "job-1" "t0" ⟨[], "3.9", false, true, true, true⟩,
            pipelineLaunched := true,
            response := ⟨"job-1", "processing",
              "Dependency resolution started. Use the /status endpoint to check progress."⟩ } :=
  rfl

/-- C6 counterexample: for the duplicate-name request
`[django>=4.0, django==3.2]` the resolution phase produces a result with
`success: false` (one conflict), yet the pipeline still compiles a report
from that failed result and stores it: the status poll afterwards returns
a completed report whose `result.success` is false — not a failed job —
so "report compilation never runs on a failed resolution result" is
false as stated. -/
theorem c6_counterexample :
    responseResult (getResolutionStatus "job-1"
      (pipelineWrites [("django", "4.2")] "job-1"
        ⟨[⟨"django", ">=", some "4.0", false, "django>=4.0"⟩,
          ⟨"django", "==", some "3.2", true, "django==3.2"⟩], "3.9", false, true, true, true⟩
        [] none true "t1" 120).getLast?) =
      some (dependencyResolution [("django", "4.2")]
        [⟨"django", ">=", some "4.0", false, "django>=4.0"⟩,
         ⟨"django", "==", some "3.2", true, "django==3.2"⟩]) ∧
    (dependencyResolution [("django", "4.2")]
        [⟨"django", ">=", some "4.0", false, "django>=4.0"⟩,
         ⟨"django", "==", some "3.2", true, "django==3.2"⟩]).success = false := by
  refine ⟨rfl, rfl⟩

/-- C6 (amended): a failing resolution phase does not stop report
compilation.  An exception thrown while resolving is caught inside
`resolveDependencies` and converted into a `ResolutionResult` with
`success: false`; `generateReport` then runs on that failed result and
(when the report store succeeds) the job is stored as a completed
report.  Only an exception escaping the research phase (or the report
store itself) skips compilation and marks the job failed. -/
theorem c6_amended_thm (reportId : String) (request : ResolutionRequest)
    (research : ResearchMap) (e : String)
    (toolOutcome : Except String ResolutionOutcome)
    (sErr : Option String) (now : String) (pt : Nat) :
    processResolutionWrites reportId request (.ok research) (.error e) none true now pt =
      [.report (generateReport reportId request
        (resolveDependencies request research (.error e)) research now pt)] ∧
    (resolveDependencies request research (.error e)).success = false ∧
    processResolutionWrites reportId request (.error e) toolOutcome sErr true now pt =
      [.errorReport reportId e now] := by
  refine ⟨rfl, rfl, rfl⟩

/-- C8: a failed registry lookup for one requirement is absorbed: the
requirement contributes no resolved or deprecated package, every other
field of the result (resolved, deprecated, conflicts, success, error)
equals that of the same call without the failing requirement, and the
warnings gain exactly the message
`Could not find package '<name>': <lookup error>` at the failing
requirement's position. -/
theorem c8_lookup_failure_isolated (registry : Registry) (req : Requirement)
    (l1 l2 : List Requirement) (errMsg : String)
    (h1 : jsTrim req.name ≠ "")
    (h2 : builtInDeprecated.lookup (jsToLower (jsTrim req.name)) = none)
    (h3 : pypiLookup registry (jsTrim req.name) = .error errMsg)
    (h4 : l1 ++ l2 ≠ []) :
    (dependencyResolution registry (l1 ++ req :: l2)).resolved_packages =
      (dependencyResolution registry (l1 ++ l2)).resolved_packages ∧
    (dependencyResolution registry (l1 ++ req :: l2)).deprecated_packages =
      (dependencyResolution registry (l1 ++ l2)).deprecated_packages ∧
    (dependencyResolution registry (l1 ++ req :: l2)).conflicts =
      (dependencyResolution registry (l1 ++ l2)).conflicts ∧
    (dependencyResolution registry (l1 ++ req :: l2)).success =
      (dependencyResolution registry (l1 ++ l2)).success ∧
    (dependencyResolution registry (l1 ++ req :: l2)).error =
      (dependencyResolution registry (l1 ++ l2)).error ∧
    (dependencyResolution registry (l1 ++ req :: l2)).warnings.getD [] =
      resolutionWarnings registry l1 ++
        ("Could not find package '" ++ jsTrim req.name ++ "': " ++ errMsg) ::
        resolutionWarnings registry l2 := by
  have hne : l1 ++ req :: l2 ≠ [] := by simp
  have hstep : processRequirement registry req =
      ⟨[], [], ["Could not find package '" ++ jsTrim req.name ++ "': " ++ errMsg]⟩ := by
    simp only [processRequirement, if_neg h1, h2, h3]
  have e1 : l1 ++ req :: l2 = l1 ++ [req] ++ l2 := by simp
  have hres : resolutionResolved registry (l1 ++ req :: l2) =
      resolutionResolved registry (l1 ++ l2) := by
    rw [e1, resolutionResolved_append, resolutionResolved_append, resolutionResolved_append]
    simp [resolutionResolved, hstep]
  have hdep : resolutionDeprecated registry (l1 ++ req :: l2) =
      resolutionDeprecated registry (l1 ++ l2) := by
    rw [e1, resolutionDeprecated_append, resolutionDeprecated_append,
      resolutionDeprecated_append]
    simp [resolutionDeprecated, hstep]
  have hconf : resolutionConflicts registry (l1 ++ req :: l2) =
      resolutionConflicts registry (l1 ++ l2) := by
    rw [resolutionConflicts, resolutionConflicts, resolutionDuplicates,
      resolutionDuplicates, hres]
  have hwarn : resolutionWarnings registry (l1 ++ req :: l2) =
      resolutionWarnings registry l1 ++
        ("Could not find package '" ++ jsTrim req.name ++ "': " ++ errMsg) ::
        resolutionWarnings registry l2 := by
    rw [e1, resolutionWarnings_append, resolutionWarnings_append]
    simp [resolutionWarnings, hstep]
  refine ⟨?_, ?_, ?_, ?_, ?_, ?_⟩
  · rw [dependencyResolution_resolved _ _ hne, dependencyResolution_resolved _ _ h4, hres]
  · rw [dependencyResolution_deprecated _ _ hne, dependencyResolution_deprecated _ _ h4,
      hdep]
  · rw [dependencyResolution_conflicts _ _ hne, dependencyResolution_conflicts _ _ h4,
      hconf]
  · rw [dependencyResolution_success _ _ hne, dependencyResolution_success _ _ h4,
      hres, hdep, hconf]
  · rw [dependencyResolution_error _ _ hne, dependencyResolution_error _ _ h4,
      dependencyResolution_success _ _ hne, dependencyResolution_success _ _ h4,
      hres, hdep, hconf]
  · rw [dependencyResolution_warnings_getD _ _ hne, hwarn]

/-- C8 witness. -/
theorem c8_witness :
    (dependencyResolution [("numpy", "1.24.3")]
        ([⟨"numpy", "", none, false, "numpy"⟩] ++
          ⟨"nosuchpkg123", "", none, false, "nosuchpkg123"⟩ :: [])).resolved_packages =
      (dependencyResolution [("numpy", "1.24.3")]
        ([⟨"numpy", "", none, false, "numpy"⟩] ++ [])).resolved_packages ∧
    (dependencyResolution [("numpy", "1.24.3")]
        ([⟨"numpy", "", none, false, "numpy"⟩] ++
          ⟨"nosuchpkg123", "", none, false, "nosuchpkg123"⟩ :: [])).deprecated_packages =
      (dependencyResolution [("numpy", "1.24.3")]
        ([⟨"numpy", "", none, false, "numpy"⟩] ++ [])).deprecated_packages ∧
    (dependencyResolution [("numpy", "1.24.3")]
        ([⟨"numpy", "", none, false, "numpy"⟩] ++
          ⟨"nosuchpkg123", "", none, false, "nosuchpkg123"⟩ :: [])).conflicts =
      (dependencyResolution [("numpy", "1.24.3")]
        ([⟨"numpy", "", none, false, "numpy"⟩] ++ [])).conflicts ∧
    (dependencyResolution [("numpy", "1.24.3")]
        ([⟨"numpy", "", none, false, "numpy"⟩] ++
          ⟨"nosuchpkg123", "", none, false, "nosuchpkg123"⟩ :: [])).success =
      (dependencyResolution [("numpy", "1.24.3")]
        ([⟨"numpy", "", none, false, "numpy"⟩] ++ [])).success ∧
    (dependencyResolution [("numpy", "1.24.3")]
        ([⟨"numpy", "", none, false, "numpy"⟩] ++
          ⟨"nosuchpkg123", "", none, false, "nosuchpkg123"⟩ :: [])).error =
      (dependencyResolution [("numpy", "1.24.3")]
        ([⟨"numpy", "", none, false, "numpy"⟩] ++ [])).error ∧
    (dependencyResolution [("numpy", "1.24.3")]
        ([⟨"numpy", "", none, false, "numpy"⟩] ++
          ⟨"nosuchpkg123", "", none, false, "nosuchpkg123"⟩ :: [])).warnings.getD [] =
      resolutionWarnings [("numpy", "1.24.3")] [⟨"numpy", "", none, false, "numpy"⟩] ++
        ("Could not find package '" ++ jsTrim "nosuchpkg123" ++ "': " ++
          ("Package '" ++ "nosuchpkg123" ++
            "' not found on PyPI. Check the spelling or try a different package name.")) ::
        resolutionWarnings [("numpy", "1.24.3")] [] :=
  c8_lookup_failure_isolated [("numpy", "1.24.3")]
    ⟨"nosuchpkg123", "", none, false, "nosuchpkg123"⟩
    [⟨"numpy", "", none, false, "numpy"⟩] [] _
    (by decide) rfl rfl (by decide)

/-- C7: job state transitions are monotonic.  Over the full set of writes
one job's key can receive (the initial processing record, then at most
one terminal record from the pipeline — a stored report, or the failed
record written when a phase throws), once a poll observes a terminal
response (`failed` or `completed`), every later poll returns exactly the
same response: never `processing` again, and in particular a failed job
keeps returning the same `{status: failed, error}` on every subsequent
poll. -/
theorem c7_status_monotonic (initialPutOk : Bool) (reportId : String)
    (request : ResolutionRequest) (submitTime : String)
    (researchOutcome : Except String ResearchMap)
    (toolOutcome : Except String ResolutionOutcome)
    (storeReportError : Option String) (storeErrorPutOk : Bool)
    (now : String) (pt : Nat) (i j : Nat) (hij : i ≤ j)
    (hterm : isTerminalResponse (pollAt reportId
      (jobWrites initialPutOk reportId request submitTime researchOutcome
        toolOutcome storeReportError storeErrorPutOk now pt) i) = true) :
    pollAt reportId
      (jobWrites initialPutOk reportId request submitTime researchOutcome
        toolOutcome storeReportError storeErrorPutOk now pt) j =
    pollAt reportId
      (jobWrites initialPutOk reportId request submitTime researchOutcome
        toolOutcome storeReportError storeErrorPutOk now pt) i := by
  rcases processResolutionWrites_shape reportId request researchOutcome toolOutcome
      storeReportError storeErrorPutOk now pt with hsh | ⟨r, hsh, hproc⟩
  · cases initialPutOk
    · have hws : jobWrites false reportId request submitTime researchOutcome
          toolOutcome storeReportError storeErrorPutOk now pt = [] := by
        rw [jobWrites, hsh]; rfl
      rw [hws, pollAt_nil] at hterm
      exact absurd hterm (by simp [isTerminalResponse])
    · have hws : jobWrites true reportId request submitTime researchOutcome
          toolOutcome storeReportError storeErrorPutOk now pt =
          [StoredRecord.processing reportId submitTime request] := by
        rw [jobWrites, hsh]; rfl
      rw [hws, pollAt_one] at hterm
      by_cases hi0 : i = 0
      · rw [if_pos hi0] at hterm
        exact absurd hterm (by simp [isTerminalResponse])
      · rw [if_neg hi0, isTerminal_processing] at hterm
        exact absurd hterm (by simp)
  · cases initialPutOk
    · have hws : jobWrites false reportId request submitTime researchOutcome
          toolOutcome storeReportError storeErrorPutOk now pt = [r] := by
        rw [jobWrites, hsh]; rfl
      rw [hws, pollAt_one] at hterm
      rw [hws, pollAt_one, pollAt_one]
      by_cases hi0 : i = 0
      · rw [if_pos hi0] at hterm
        exact absurd hterm (by simp [isTerminalResponse])
      · have hj0 : j ≠ 0 := by omega
        rw [if_neg hi0, if_neg hj0]
    · have hws : jobWrites true reportId request submitTime researchOutcome
          toolOutcome storeReportError storeErrorPutOk now pt =
          [StoredRecord.processing reportId submitTime request, r] := by
        rw [jobWrites, hsh]; rfl
      rw [hws, pollAt_two] at hterm
      rw [hws, pollAt_two, pollAt_two]
      by_cases hi0 : i = 0
      · rw [if_pos hi0] at hterm
        exact absurd hterm (by simp [isTerminalResponse])
      · rw [if_neg hi0] at hterm
        by_cases hi1 : i = 1
        · rw [if_pos hi1, isTerminal_processing] at hterm
          exact absurd hterm (by simp)
        · have hj0 : j ≠ 0 := by omega
          have hj1 : j ≠ 1 := by
            rcases Nat.lt_or_ge i 2 with hlt | hge
            · omega
            · omega
          rw [if_neg hi0, if_neg hi1, if_neg hj0, if_neg hj1]

/-- C7 witness. -/
theorem c7_witness :
    pollAt "job-1" (jobWrites true "job-1" ⟨[], "3.9", false, true, true, true⟩ "t0"
      (.ok []) (.ok (dependencyResolution [] [])) none true "t1" 5) 5 =
    pollAt "job-1" (jobWrites true "job-1" ⟨[], "3.9", false, true, true, true⟩ "t0"
      (.ok []) (.ok (dependencyResolution [] [])) none true "t1" 5) 2 :=
  c7_status_monotonic true "job-1" ⟨[], "3.9", false, true, true, true⟩ "t0" (.ok [])
    (.ok (dependencyResolution [] [])) none true "t1" 5 2 5 (by omega) rfl

/-- C9 counterexample: the generator's sort is stable, so two resolved
lists that are permutations of each other but repeat a package name
(here `foo@1.0` and `foo@2.0`) produce different manifest texts — the
claim that permuted inputs always yield identical manifests is false as
stated. -/
theorem c9_counterexample :
    List.Perm [GenPackage.mk "foo" "1.0" "pypi", GenPackage.mk "foo" "2.0" "pypi"]
      [GenPackage.mk "foo" "2.0" "pypi", GenPackage.mk "foo" "1.0" "pypi"] ∧
    requirementsGenerator
        [GenPackage.mk "foo" "1.0" "pypi", GenPackage.mk "foo" "2.0" "pypi"]
        true true "2024-01-01T00:00:00.000Z" ≠
      requirementsGenerator
        [GenPackage.mk "foo" "2.0" "pypi", GenPackage.mk "foo" "1.0" "pypi"]
        true true "2024-01-01T00:00:00.000Z" := by
  constructor
  · exact List.Perm.swap _ _ _
  · decide

/-- C9 (amended): the generator sorts the manifest lines by package name,
and for inputs whose package names are pairwise distinct the manifest
text is invariant under permutation of the input (at the same generation
timestamp).  When a name occurs more than once, the stable sort keeps
the duplicates in input order, so permuted inputs can differ. -/
theorem c9_amended_thm (l1 l2 : List GenPackage) (include_comments pin_versions : Bool)
    (now : String) (hperm : List.Perm l1 l2)
    (hnodup : (l1.map GenPackage.name).Nodup) :
    (sortPackages l1).Pairwise nameLe ∧
    requirementsGenerator l1 include_comments pin_versions now =
      requirementsGenerator l2 include_comments pin_versions now := by
  have hsort : sortPackages l1 = sortPackages l2 := by
    apply sorted_perm_nodup_eq
    · exact (sortPackages_perm l1).trans (hperm.trans (sortPackages_perm l2).symm)
    · exact sortPackages_sorted l1
    · exact sortPackages_sorted l2
    · exact ((sortPackages_perm l1).map GenPackage.name).nodup_iff.mpr hnodup
  have hlen : l1.length = l2.length := hperm.length_eq
  refine ⟨sortPackages_sorted l1, ?_⟩
  simp only [requirementsGenerator]
  rw [hsort, hlen]

/-- C9 witness. -/
theorem c9_amended_witness :
    (sortPackages [GenPackage.mk "b" "2.0" "pypi", GenPackage.mk "a" "1.0" "pypi"]).Pairwise
      nameLe ∧
    requirementsGenerator [GenPackage.mk "b" "2.0" "pypi", GenPackage.mk "a" "1.0" "pypi"]
        true true "t" =
      requirementsGenerator [GenPackage.mk "a" "1.0" "pypi", GenPackage.mk "b" "2.0" "pypi"]
        true true "t" :=
  c9_amended_thm [GenPackage.mk "b" "2.0" "pypi", GenPackage.mk "a" "1.0" "pypi"]
    [GenPackage.mk "a" "1.0" "pypi", GenPackage.mk "b" "2.0" "pypi"]
    true true "t" (List.Perm.swap _ _ _) (by decide)

/-- C10: the pipeline's report generation always invokes the requirements
generator with `include_comments: true` and `pin_versions: true` over the
resolved packages tagged `source: "pypi"`, and under those flags every
package line of the manifest is exactly `name ++ "==" ++ version` — the
requirement's original operator never appears. -/
theorem c10_manifest_pins (reportId : String) (request : ResolutionRequest)
    (resolutionResult : ResolutionOutcome) (research : ResearchMap) (now : String)
    (pt : Nat) (pkgs : List ResolvedPackage)
    (h : resolutionResult.resolved_packages = some pkgs) :
    (generateReport reportId request resolutionResult research now pt).requirements_txt =
      requirementsGenerator (pkgs.map (fun p => GenPackage.mk p.name p.version "pypi"))
        true true now ∧
    ∀ g ∈ sortPackages (pkgs.map (fun p => GenPackage.mk p.name p.version "pypi")),
      pkgLine true true g = g.name ++ "==" ++ g.version ++ "\n" := by
  constructor
  · simp only [generateReport, h]
  · intro g hg
    have hg2 : g ∈ pkgs.map (fun p => GenPackage.mk p.name p.version "pypi") :=
      (sortPackages_perm _).mem_iff.mp hg
    rcases List.mem_map.mp hg2 with ⟨p, _, rfl⟩
    simp [pkgLine]

/-- C10 witness. -/
theorem c10_witness :
    (generateReport "job-1" ⟨[], "3.9", false, true, true, true⟩
        { success := true, resolved_packages := some [⟨"numpy", "1.24.3"⟩],
          deprecated_packages := none, conflicts := none, error := none,
          warnings := none } [] "t1" 10).requirements_txt =
      requirementsGenerator
        ([ResolvedPackage.mk "numpy" "1.24.3"].map
          (fun p => GenPackage.mk p.name p.version "pypi")) true true "t1" ∧
    ∀ g ∈ sortPackages ([ResolvedPackage.mk "numpy" "1.24.3"].map
        (fun p => GenPackage.mk p.name p.version "pypi")),
      pkgLine true true g = g.name ++ "==" ++ g.version ++ "\n" :=
  c10_manifest_pins "job-1" ⟨[], "3.9", false, true, true, true⟩
    { success := true, resolved_packages := some [⟨"numpy", "1.24.3"⟩],
      deprecated_packages := none, conflicts := none, error := none,
      warnings := none } [] "t1" 10 [ResolvedPackage.mk "numpy" "1.24.3"] rfl

/-- C4 witness. -/
theorem c4_amended_witness :
    (processRequirement [("flask", "2.0")]
        ⟨"flask", "<=", some "1.0", false, "flask<=1.0"⟩).resolved =
      [⟨jsTrim "flask",
        if jsTruthy (some "1.0") && jsTruthyStr "<=" then (some "1.0").getD ""
        else jsOr "2.0" "unknown"⟩] :=
  c4_amended_thm [("flask", "2.0")] ⟨"flask", "<=", some "1.0", false, "flask<=1.0"⟩
    "2.0" (by decide) rfl rfl (by decide) (by decide) (by decide) rfl

end PipSpec
